import Mathlib

/-!
Verification of the standalone-binary compose / detect / run path of
`src/cli/standalone.rs`.

The embedding is byte-level: a file image is a `List Nat` whose elements are
byte values.  Machine `u64` / `usize` arithmetic is modelled on `Nat` with the
relevant truncations and underflows made explicit.
-/

/-- The 8-byte magic constant `MAGIC_TRAILER = b"d3n0l4nd"` from
`src/cli/standalone.rs` line 28, as its byte values. -/
def MAGIC_TRAILER : List Nat := [100, 51, 110, 48, 108, 52, 110, 100]

/-- Big-endian encoding of the low 64 bits of a natural number, as 8 bytes.
Models `u64::to_be_bytes` / `usize::to_be_bytes` (64-bit target). -/
def u64be (n : Nat) : List Nat :=
  [n / 2 ^ 56 % 256, n / 2 ^ 48 % 256, n / 2 ^ 40 % 256, n / 2 ^ 32 % 256,
   n / 2 ^ 24 % 256, n / 2 ^ 16 % 256, n / 2 ^ 8 % 256, n % 256]

/-- Big-endian decoding of a byte list.  Models `u64::from_be_bytes`
(line 46 of the source), applied there to an 8-byte slice. -/
def u64fromBe (bs : List Nat) : Nat :=
  bs.foldl (fun acc b => acc * 256 + b) 0

/-- The image built by `create_standalone_binary` (lines 154-168):
`final_bin = original_bin ++ source_code ++ (MAGIC_TRAILER ++ be(original_bin.len()))`.
In the source `original_bin` is read from the currently running executable;
here it is passed explicitly. -/
def create_standalone_binary (source_code : List Nat) (original_bin : List Nat) :
    List Nat :=
  original_bin ++ source_code ++ (MAGIC_TRAILER ++ u64be original_bin.length)

/-- Outcome of `try_run_standalone_binary` (lines 36-62) on a given image. -/
inductive RunOutcome where
  /-- An I/O error propagated to the caller, e.g. the `seek(SeekFrom::End(-16))`
  on line 40 failing because the image is shorter than 16 bytes. -/
  | ioError
  /-- The magic check on line 44 failed: the function returns `Ok(())` and the
  normal command line path continues (line 60). -/
  | notStandalone
  /-- The magic matched and the bundle bytes were read (lines 45-51); the
  process then runs the bundle and exits. -/
  | standalone (bundle : List Nat)
  /-- The unsigned 64-bit subtraction `trailer_pos - bundle_pos` on line 49
  underflowed (`bundle_pos > trailer_pos`).  The source performs this
  subtraction with no preceding bounds check; the underflow, a panic in builds
  with overflow checks, is modelled explicitly as this outcome. -/
  | underflowPanic
deriving DecidableEq

/-- Detection and extraction logic of `try_run_standalone_binary`
(lines 39-61), as a function of the bytes of the running executable:
seek to the last 16 bytes (an I/O error if the image is shorter than 16),
split them into magic and big-endian offset, and on a magic match read
`trailer_pos - bundle_pos` bytes starting at `bundle_pos`. -/
def try_run_standalone_binary (image : List Nat) : RunOutcome :=
  if image.length < 16 then .ioError
  else
    let trailer_pos := image.length - 16
    let trailer := image.drop trailer_pos
    if trailer.take 8 = MAGIC_TRAILER then
      let bundle_pos := u64fromBe (trailer.drop 8)
      if bundle_pos ≤ trailer_pos then
        .standalone ((image.drop bundle_pos).take (trailer_pos - bundle_pos))
      else .underflowPanic
    else .notStandalone

/-- State of the output path before `create_standalone_binary` writes to it:
nothing there, an existing directory, or an existing file with given bytes. -/
inductive TargetState where
  | absent
  | directory
  | existingFile (bytes : List Nat)
deriving DecidableEq

/-- Errors the output-path handling of `create_standalone_binary` can raise:
the two `bail!` composition errors (lines 180 and 191) and a propagated I/O
error (e.g. the `seek(SeekFrom::End(-16))` on line 186 failing because the
existing file is shorter than 16 bytes). -/
inductive ComposeError where
  | isDirectory
  | cannotOverwrite
  | ioError
deriving DecidableEq

/-- Output-path checking and writing of `create_standalone_binary`
(lines 177-194), as a transition on a snapshot of the output path: a
directory fails with the is-a-directory error; an existing file has its last
16 bytes read and the write is refused unless their first 8 bytes are the
magic constant; otherwise `final_bin` fully replaces the target.  The second
component is the resulting state of the path: on every error the target is
returned unchanged, since all checks precede the `tokio::fs::write`. -/
def write_standalone_output (final_bin : List Nat) (target : TargetState) :
    Except ComposeError Unit × TargetState :=
  match target with
  | .absent => (.ok (), .existingFile final_bin)
  | .directory => (.error .isDirectory, .directory)
  | .existingFile bytes =>
    if bytes.length < 16 then (.error .ioError, .existingFile bytes)
    else if (bytes.drop (bytes.length - 16)).take 8 = MAGIC_TRAILER then
      (.ok (), .existingFile final_bin)
    else (.error .cannotOverwrite, .existingFile bytes)

/-- The fixed synthetic module specifier `SPECIFIER` (line 64). -/
def SPECIFIER : String := "file://$deno$/bundle.js"

/-- Error raised by the embedded loader for any specifier other than the
synthetic one: the `type_error` with message saying self-contained binaries
do not support module loading (lines 77-79 and 95-97). -/
inductive LoaderError where
  | unsupportedModuleLoading
deriving DecidableEq

/-- The loader `struct EmbeddedModuleLoader(String)` (line 66): it holds the
single bundled source string. -/
structure EmbeddedModuleLoader where
  source_code : String
deriving DecidableEq

/-- Modelled from the spec: `ModuleSpecifier::resolve_url` lives in the
`deno_core` crate, which is not under `src/`; the spec states that resolving
the synthetic specifier returns it unchanged, so URL parsing is modelled as
the identity on the string. -/
def resolve_url (s : String) : Except LoaderError String := .ok s

/-- The result type `deno_core::ModuleSource` of a successful load
(lines 99-103), with held code and the specified and found identifiers. -/
structure ModuleSource where
  code : String
  module_url_specified : String
  module_url_found : String
deriving DecidableEq

/-- Models `EmbeddedModuleLoader::resolve` (lines 69-82): any specifier other than
`SPECIFIER` fails with the unsupported-module-loading error; the synthetic
specifier is passed to `resolve_url`.  The referrer and is-main arguments are
taken but never inspected, as in the source. -/
def EmbeddedModuleLoader.resolve (self : EmbeddedModuleLoader)
    (specifier referrer : String) ( is_main : Bool) :
    Except LoaderError String :=
  if specifier ≠ SPECIFIER then .error .unsupportedModuleLoading
  else resolve_url specifier

/-- Models `EmbeddedModuleLoader::load` (lines 84-106): any specifier other than
`SPECIFIER` fails with the unsupported-module-loading error; the synthetic
specifier yields a `ModuleSource` whose code is the held string and whose
specified and found identifiers are both the given specifier.  The source
wraps this in an immediately-resolved future; the suspension is semantically
irrelevant and omitted. -/
def EmbeddedModuleLoader.load (self : EmbeddedModuleLoader)
    (module_specifier : String) : Except LoaderError ModuleSource :=
  if module_specifier ≠ SPECIFIER then .error .unsupportedModuleLoading
  else .ok { code := self.source_code
             module_url_specified := module_specifier
             module_url_found := module_specifier }

/-- Possible behaviours of a worker-creation hook, used to state what the
hook installed by `run` does: abort via a panic carrying a message, return
an unsupported-capability result to the caller, or create a worker. -/
inductive WorkerCbOutcome where
  | panicked (msg : String)
  | unsupportedResult
  | created
deriving DecidableEq

/-- The hook `create_web_worker_cb = Arc::new(|_| todo!(...))` installed into
`WorkerOptions` (lines 119-121 and 132): for every argument it runs
`todo!("Worker are currently not supported in standalone binaries")`, i.e. it
panics with the corresponding not-yet-implemented message and never returns a
value to its caller. -/
def create_web_worker_cb (args : Unit) : WorkerCbOutcome :=
  .panicked "not yet implemented: Worker are currently not supported in standalone binaries"

/-- The fields of `Flags` that `run` sets explicitly (lines 110-115). -/
structure Flags where
  argv : List String
  unstable : Bool
deriving DecidableEq

/-- Flag construction at the top of `run` (lines 110-115): the script argv is
the slice `args[1..]`.  Slicing with `1` past the length, i.e. on an empty
`args` vector, is an index panic in the source; that partiality is modelled
by returning `none`. -/
def run_flags (args : List String) : Option Flags :=
  if 1 ≤ args.length then some { argv := args.drop 1, unstable := true }
  else none

theorem u64be_length (n : Nat) : (u64be n).length = 8 := rfl

theorem u64be_roundtrip (n : Nat) (h : n < 2 ^ 64) : u64fromBe (u64be n) = n := by
  simp only [u64fromBe, u64be, List.foldl]
  omega

/-- Claim C1: for every host image H of at least 16 bytes (and length within `u64`
range, as any `usize` is) and every payload byte sequence P, running detection
and extraction on `create_standalone_binary`-composed image yields exactly the
payload P. -/
theorem c1_round_trip (H P : List Nat) (h16 : 16 ≤ H.length)
    (h64 : H.length < 2 ^ 64) :
    try_run_standalone_binary (create_standalone_binary P H) = .standalone P := by
  have hlen : (create_standalone_binary P H).length
      = H.length + P.length + 16 := by
    simp [create_standalone_binary, u64be_length, MAGIC_TRAILER]
    omega
  have himg : create_standalone_binary P H
      = (H ++ P) ++ (MAGIC_TRAILER ++ u64be H.length) := by
    simp [create_standalone_binary, List.append_assoc]
  have hdrop : (create_standalone_binary P H).drop (H.length + P.length)
      = MAGIC_TRAILER ++ u64be H.length := by
    rw [himg]
    have : (H ++ P).length = H.length + P.length := List.length_append H P
    rw [← this, List.drop_left]
  have hdropH : (create_standalone_binary P H).drop H.length
      = P ++ (MAGIC_TRAILER ++ u64be H.length) := by
    have : create_standalone_binary P H
        = H ++ (P ++ (MAGIC_TRAILER ++ u64be H.length)) := by
      rw [himg, List.append_assoc]
    rw [this, List.drop_left]
  unfold try_run_standalone_binary
  rw [hlen]
  have hnotlt : ¬ H.length + P.length + 16 < 16 := by omega
  rw [if_neg hnotlt]
  have htp : H.length + P.length + 16 - 16 = H.length + P.length := by omega
  have htake : (MAGIC_TRAILER ++ u64be H.length).take 8 = MAGIC_TRAILER := by
    have h8 : (MAGIC_TRAILER : List Nat).length = 8 := rfl
    rw [← h8, List.take_left]
  have hdrop8 : (MAGIC_TRAILER ++ u64be H.length).drop 8 = u64be H.length := by
    have h8 : (MAGIC_TRAILER : List Nat).length = 8 := rfl
    rw [← h8, List.drop_left]
  have hle : H.length ≤ H.length + P.length := Nat.le_add_right _ _
  rw [htp]
  simp only [hdrop, htake, hdrop8, u64be_roundtrip H.length h64, hdropH, hle,
    eq_self_iff_true, if_true, Nat.add_sub_cancel_left, List.take_left]

/-- Witness for C1 at a concrete 16-byte host image and 3-byte payload. -/
theorem c1_round_trip_witness :
    try_run_standalone_binary
      (create_standalone_binary [1, 2, 3] (List.replicate 16 0))
      = .standalone [1, 2, 3] :=
  c1_round_trip (List.replicate 16 0) [1, 2, 3] (by decide) (by decide)

/-- Claim C2: the composed image is the host bytes, then the payload bytes,
then a 16-byte trailer of the magic constant followed by the big-endian
64-bit encoding of the host length; consequently its length is
host length + payload length + 16, and decoding the encoded offset gives
back the host length. -/
theorem c2_compose_layout (H P : List Nat) (h64 : H.length < 2 ^ 64) :
    create_standalone_binary P H = H ++ P ++ (MAGIC_TRAILER ++ u64be H.length)
    ∧ (MAGIC_TRAILER ++ u64be H.length).length = 16
    ∧ (create_standalone_binary P H).length = H.length + P.length + 16
    ∧ u64fromBe (u64be H.length) = H.length := by
  refine ⟨rfl, rfl, ?_, u64be_roundtrip _ h64⟩
  simp [create_standalone_binary, u64be_length, MAGIC_TRAILER]
  omega

/-- Witness for C2 at a concrete 16-byte host image and 1-byte payload. -/
theorem c2_compose_layout_witness :
    (create_standalone_binary [7] (List.replicate 16 0)).length
      = (List.replicate 16 0).length + [7].length + 16 :=
  (c2_compose_layout (List.replicate 16 0) [7] (by decide)).2.2.1

/-- Claim C3: writing to an output path that is an existing directory, or an
existing file (of at least 16 bytes) whose last 16 bytes do not begin with
the magic constant, yields a composition error and leaves the target state
unchanged. -/
theorem c3_refuse_overwrite (final_bin : List Nat) :
    write_standalone_output final_bin .directory
      = (.error .isDirectory, .directory)
    ∧ ∀ bytes : List Nat, 16 ≤ bytes.length →
        (bytes.drop (bytes.length - 16)).take 8 ≠ MAGIC_TRAILER →
        write_standalone_output final_bin (.existingFile bytes)
          = (.error .cannotOverwrite, .existingFile bytes) := by
  refine ⟨rfl, ?_⟩
  intro bytes h16 hm
  have h : ¬ bytes.length < 16 := by omega
  simp [write_standalone_output, h, hm]

/-- Witness for C3 at a 16-byte all-zero existing file. -/
theorem c3_refuse_overwrite_witness :
    write_standalone_output [1, 2] (.existingFile (List.replicate 16 0))
      = (.error .cannotOverwrite, .existingFile (List.replicate 16 0)) :=
  (c3_refuse_overwrite [1, 2]).2 (List.replicate 16 0) (by decide) (by decide)

/-- Counterexample to claim C4 as stated: the 16-byte image whose FIRST 8
bytes are the magic constant and whose LAST 8 bytes are zero satisfies the
hypothesis (last 8 bytes differ from the magic), yet detection does not
return the not-standalone outcome, because the code compares the magic
against bytes [len-16, len-8), not against the last 8 bytes. -/
theorem c4_counterexample :
    16 ≤ (MAGIC_TRAILER ++ List.replicate 8 0).length
    ∧ (MAGIC_TRAILER ++ List.replicate 8 0).drop
        ((MAGIC_TRAILER ++ List.replicate 8 0).length - 8) ≠ MAGIC_TRAILER
    ∧ try_run_standalone_binary (MAGIC_TRAILER ++ List.replicate 8 0)
        ≠ .notStandalone := by decide

/-- Claim C4 as amended: for every image of at least 16 bytes whose bytes at
positions [len-16, len-8) (the first 8 bytes of the 16-byte trailer) differ
from the magic constant, detection returns the not-standalone success
outcome, raising no error. -/
theorem c4_not_standalone (image : List Nat) (h16 : 16 ≤ image.length)
    (hm : (image.drop (image.length - 16)).take 8 ≠ MAGIC_TRAILER) :
    try_run_standalone_binary image = .notStandalone := by
  have h : ¬ image.length < 16 := by omega
  simp [try_run_standalone_binary, h, hm]

/-- Witness for the amended C4 at a 16-byte all-zero image. -/
theorem c4_not_standalone_witness :
    try_run_standalone_binary (List.replicate 16 0) = .notStandalone :=
  c4_not_standalone (List.replicate 16 0) (by decide) (by decide)

/-- Claim C5: resolve succeeds exactly on the synthetic specifier, returning
it unchanged, and fails with the unsupported-module-loading error on every
other specifier, for every referrer, is-main flag and loader state. -/
theorem c5_resolve (self : EmbeddedModuleLoader) (specifier referrer : String)
    (b : Bool) :
    (specifier = SPECIFIER →
      self.resolve specifier referrer b = .ok specifier)
    ∧ (specifier ≠ SPECIFIER →
      self.resolve specifier referrer b = .error .unsupportedModuleLoading) := by
  constructor
  · intro h
    simp [EmbeddedModuleLoader.resolve, h, resolve_url]
  · intro h
    simp [EmbeddedModuleLoader.resolve, h]

/-- Witness for C5: the synthetic specifier resolves to itself and the empty
specifier is rejected. -/
theorem c5_resolve_witness :
    EmbeddedModuleLoader.resolve ⟨"code"⟩ SPECIFIER "referrer" false
        = .ok SPECIFIER
    ∧ EmbeddedModuleLoader.resolve ⟨"code"⟩ "" "referrer" false
        = .error .unsupportedModuleLoading :=
  ⟨(c5_resolve ⟨"code"⟩ SPECIFIER "referrer" false).1 rfl,
   (c5_resolve ⟨"code"⟩ "" "referrer" false).2 (by decide)⟩

/-- Claim C6: loading the synthetic specifier returns the stored source
string byte for byte, with the specified and found identifiers both equal to
the synthetic specifier; loading any other specifier fails with the same
unsupported-module-loading error. -/
theorem c6_load (self : EmbeddedModuleLoader) (specifier : String) :
    self.load SPECIFIER
      = .ok { code := self.source_code
              module_url_specified := SPECIFIER
              module_url_found := SPECIFIER }
    ∧ (specifier ≠ SPECIFIER →
      self.load specifier = .error .unsupportedModuleLoading) := by
  constructor
  · simp [EmbeddedModuleLoader.load]
  · intro h
    simp [EmbeddedModuleLoader.load, h]

/-- Witness for C6 at a concrete held source string and the empty specifier. -/
theorem c6_load_witness :
    EmbeddedModuleLoader.load ⟨"console.log(1)"⟩ ""
      = .error .unsupportedModuleLoading :=
  (c6_load ⟨"console.log(1)"⟩ "").2 (by decide)

/-- Counterexample to claim C7 as stated: the worker-creation hook does not
return an unsupported-capability result to its caller; invoking it panics. -/
theorem c7_counterexample :
    create_web_worker_cb () ≠ .unsupportedResult := by decide

/-- Claim C7 as amended: for every invocation the worker-creation hook
panics via the to-do macro with its not-yet-implemented message about
workers being unsupported in standalone binaries, rather than creating a
worker or returning any result. -/
theorem c7_worker_cb_panics (args : Unit) :
    create_web_worker_cb args
      = .panicked "not yet implemented: Worker are currently not supported in standalone binaries"
    ∧ create_web_worker_cb args ≠ .created := by
  exact ⟨rfl, by simp [create_web_worker_cb]⟩

/-- Claim C8: on every image shorter than 16 bytes, detection fails with the
propagated I/O error and does not return the not-standalone outcome. -/
theorem c8_short_image_io_error (image : List Nat) (h : image.length < 16) :
    try_run_standalone_binary image = .ioError
    ∧ try_run_standalone_binary image ≠ .notStandalone := by
  have h1 : try_run_standalone_binary image = .ioError := by
    simp [try_run_standalone_binary, h]
  exact ⟨h1, by simp [h1]⟩

/-- Witness for C8 at the empty image. -/
theorem c8_short_image_io_error_witness :
    try_run_standalone_binary [] = .ioError :=
  (c8_short_image_io_error [] (by decide)).1

/-- Claim C9: for every magic-matching image of at least 16 bytes, the
unsigned subtraction computing the payload length underflows exactly when
the decoded offset exceeds file length minus 16 - there is no validation
preventing this, as the second conjunct shows on a concrete magic-matching
image whose encoded offset is 1 while the host region is empty. -/
theorem c9_unchecked_subtraction :
    (∀ image : List Nat, 16 ≤ image.length →
      (image.drop (image.length - 16)).take 8 = MAGIC_TRAILER →
      (try_run_standalone_binary image ≠ .underflowPanic ↔
        u64fromBe ((image.drop (image.length - 16)).drop 8)
          ≤ image.length - 16))
    ∧ try_run_standalone_binary (MAGIC_TRAILER ++ u64be 1)
        = .underflowPanic := by
  constructor
  · intro image h16 hm
    have h : ¬ image.length < 16 := by omega
    unfold try_run_standalone_binary
    simp only [if_neg h, hm, if_true, eq_self_iff_true]
    by_cases hle : u64fromBe ((image.drop (image.length - 16)).drop 8)
        ≤ image.length - 16
    · simp [hle]
    · simp [hle]
  · decide

/-- Witness for C9: the conforming all-zero-offset artifact does not hit the
underflow. -/
theorem c9_unchecked_subtraction_witness :
    try_run_standalone_binary (MAGIC_TRAILER ++ u64be 0) ≠ .underflowPanic :=
  (c9_unchecked_subtraction.1 (MAGIC_TRAILER ++ u64be 0) (by decide)
    (by decide)).mpr (by decide)

/-- Claim C10: for every non-empty args vector, the flags built by run carry
argv equal to args with its first element removed, with the unstable flag
forced on; on the empty vector the slice indexing has no value (an index
panic in the source). -/
theorem c10_argv (args : List String) :
    (args ≠ [] →
      run_flags args = some { argv := args.tail, unstable := true })
    ∧ run_flags [] = none := by
  constructor
  · intro h
    have h1 : 1 ≤ args.length := by
      cases args with
      | nil => simp at h
      | cons a l => simp
    simp [run_flags, h1, List.drop_one]
  · rfl

/-- Witness for C10 at a two-element argument vector. -/
theorem c10_argv_witness :
    run_flags ["deno", "script-arg"]
      = some { argv := ["deno", "script-arg"].tail, unstable := true } :=
  (c10_argv ["deno", "script-arg"]).1 (by decide)
